import Mathlib

/-
Verification development for the SC-SGS/hardware_sampling repository.

The repository source provided here is the Python usage example
examples/python/main.py, which drives an externally provided sampling
library (the HardwareSampling module): it constructs a sampler, calls
start, add_event twice, stop, and dump_yaml.  The SamplingSession data
model and operations themselves are not part of the provided sources, so
they are modelled from the specification (sections 3 to 7), and the
example call sequence is embedded from main.py.
-/

namespace HardwareSampling

/-- Lifecycle states of a sampling session: Idle, Running, Stopped. -/
inductive SessionState
  | Idle
  | Running
  | Stopped
deriving DecidableEq

/-- Error taxonomy of the sampler API from the specification, section 7. -/
inductive SamplerError
  | InvalidStateError
  | InvalidArgumentError
  | IOError
deriving DecidableEq

instance {ε α : Type} [DecidableEq ε] [DecidableEq α] :
    DecidableEq (Except ε α) := fun x y =>
  match x, y with
  | Except.ok a, Except.ok b =>
      if h : a = b then isTrue (by rw [h])
      else isFalse (by intro hc; cases hc; exact h rfl)
  | Except.error a, Except.error b =>
      if h : a = b then isTrue (by rw [h])
      else isFalse (by intro hc; cases hc; exact h rfl)
  | Except.ok _, Except.error _ => isFalse (by intro hc; cases hc)
  | Except.error _, Except.ok _ => isFalse (by intro hc; cases hc)

/-- A user-defined timestamped marker: monotonic timestamp plus label. -/
structure Event where
  timestamp : Nat
  label : String
deriving DecidableEq

/-- Metric values: a mapping from metric name to numeric value. -/
abbrev Metrics := List (String × Int)

/-- One entry of the sample sequence: a captured sample record, or a gap
recorded when the underlying metric source failed for one period. -/
inductive SampleEntry
  | record (timestamp : Nat) (metricValues : Metrics)
  | gap (timestamp : Nat)
deriving DecidableEq

/-- Timestamp carried by a sample entry. -/
def SampleEntry.time : SampleEntry → Nat
  | .record t _ => t
  | .gap t => t

/-- Modelled from the spec: the Session state of the HardwareSampling
library (absent from the provided sources).  It holds the lifecycle state,
the ordered event sequence, the ordered sample sequence, and the session
metadata (start time and stop time). -/
structure Session where
  state : SessionState
  events : List Event
  samples : List SampleEntry
  startTime : Option Nat
  stopTime : Option Nat
deriving DecidableEq

/-- Modelled from the spec: a freshly constructed Session is Idle with
empty sequences and no recorded times. -/
def Session.new : Session :=
  { state := SessionState.Idle
    events := []
    samples := []
    startTime := none
    stopTime := none }

/-- Modelled from the spec: start() transitions Idle to Running and records
the start time; it fails with InvalidStateError if the session is already
Running or Stopped.  The argument t is the current monotonic clock
reading. -/
def start (s : Session) (t : Nat) : Except SamplerError Session :=
  match s.state with
  | SessionState.Idle =>
      Except.ok { s with state := SessionState.Running, startTime := some t }
  | _ => Except.error SamplerError.InvalidStateError

/-- Modelled from the spec: add_event(label) appends an Event with the
current monotonic timestamp; it is valid in any non-Stopped state; an empty
label fails with InvalidArgumentError (the documented implementer choice). -/
def add_event (s : Session) (t : Nat) (label : String) : Except SamplerError Session :=
  match s.state with
  | SessionState.Stopped => Except.error SamplerError.InvalidStateError
  | _ =>
      if label = "" then Except.error SamplerError.InvalidArgumentError
      else Except.ok { s with events := s.events ++ [Event.mk t label] }

/-- Modelled from the spec: stop() transitions Running to Stopped, halts
periodic collection and records the stop time; it fails with
InvalidStateError if the session is not Running. -/
def stop (s : Session) (t : Nat) : Except SamplerError Session :=
  match s.state with
  | SessionState.Running =>
      Except.ok { s with state := SessionState.Stopped, stopTime := some t }
  | _ => Except.error SamplerError.InvalidStateError

/-- Modelled from the spec: one iteration of the background periodic
collection loop at monotonic time t.  While the session is Running it
appends a SampleRecord when the metric source yields values, and appends a
recorded gap when the source fails (the loop never raises and never
terminates the session).  Outside Running it does nothing. -/
def sampleTick (s : Session) (t : Nat) (m : Option Metrics) : Session :=
  match s.state with
  | SessionState.Running =>
      match m with
      | some vals => { s with samples := s.samples ++ [SampleEntry.record t vals] }
      | none => { s with samples := s.samples ++ [SampleEntry.gap t] }
  | _ => s

/-- An operation on the session: a caller API call or one background
sampling-loop iteration. -/
inductive Op
  | start (t : Nat)
  | addEvent (t : Nat) (label : String)
  | stop (t : Nat)
  | tick (t : Nat) (m : Option Metrics)

/-- Applying one operation to the session.  A caller call that raises
(returns an error) leaves the session unchanged; a background tick is
always applied. -/
def applyOp (s : Session) : Op → Session
  | Op.start t =>
      match start s t with
      | Except.ok s1 => s1
      | Except.error _ => s
  | Op.addEvent t l =>
      match add_event s t l with
      | Except.ok s1 => s1
      | Except.error _ => s
  | Op.stop t =>
      match stop s t with
      | Except.ok s1 => s1
      | Except.error _ => s
  | Op.tick t m => sampleTick s t m

/-- Running a list of operations in order. -/
def exec (s : Session) (ops : List Op) : Session :=
  ops.foldl applyOp s

/-- Numeric order of lifecycle states along the Idle, Running, Stopped
progression. -/
def stateOrd : SessionState → Nat
  | SessionState.Idle => 0
  | SessionState.Running => 1
  | SessionState.Stopped => 2

/-- The immutable output document of a session, section 6 of the
specification: session metadata, ordered samples, ordered events. -/
structure Document where
  startTime : Option Nat
  stopTime : Option Nat
  samples : List SampleEntry
  events : List Event
deriving DecidableEq

/-- The document serialized for a session. -/
def toDocument (s : Session) : Document :=
  { startTime := s.startTime
    stopTime := s.stopTime
    samples := s.samples
    events := s.events }

/-- Output formats offered by the sampler bindings. -/
inductive Format
  | yaml
  | json
deriving DecidableEq

/-- Rendering of an optional timestamp. -/
def renderOptNat : Option Nat → String
  | none => "null"
  | some t => toString t

/-- YAML rendering of one metric-value mapping. -/
def renderMetrics : Metrics → String
  | [] => ""
  | (n, v) :: rest => "\n      " ++ n ++ ": " ++ toString v ++ renderMetrics rest

/-- YAML rendering of one sample entry. -/
def renderEntry : SampleEntry → String
  | SampleEntry.record t m =>
      "\n  - timestamp: " ++ toString t ++ "\n    metrics:" ++ renderMetrics m
  | SampleEntry.gap t =>
      "\n  - timestamp: " ++ toString t ++ "\n    gap: true"

/-- YAML rendering of one event. -/
def renderEvent (e : Event) : String :=
  "\n  - timestamp: " ++ toString e.timestamp ++ "\n    label: " ++ e.label

/-- JSON rendering of one sample entry. -/
def renderEntryJson : SampleEntry → String
  | SampleEntry.record t m =>
      "\x7b\x22timestamp\x22: " ++ toString t ++ ", \x22metrics\x22: " ++ toString m.length ++ "\x7d"
  | SampleEntry.gap t =>
      "\x7b\x22timestamp\x22: " ++ toString t ++ ", \x22gap\x22: true\x7d"

/-- Modelled from the spec: serialization of the immutable session document
to a structured text format (the HardwareSampling dump routines are absent
from the provided sources).  The output is a pure function of the session
and the format. -/
def serialize (s : Session) (fmt : Format) : String :=
  match fmt with
  | Format.yaml =>
      "start_time: " ++ renderOptNat s.startTime ++
      "\nstop_time: " ++ renderOptNat s.stopTime ++
      "\nsamples:" ++ String.join (s.samples.map renderEntry) ++
      "\nevents:" ++ String.join (s.events.map renderEvent) ++ "\n"
  | Format.json =>
      "\x7b\x22start_time\x22: " ++ renderOptNat s.startTime ++
      ", \x22stop_time\x22: " ++ renderOptNat s.stopTime ++
      ", \x22samples\x22: [" ++ String.join (s.samples.map renderEntryJson) ++
      "], \x22events\x22: " ++ toString s.events.length ++ "\x7d"

/-- A flat filesystem: an association list from path to file contents,
most recent write first. -/
abbrev FS := List (String × String)

/-- Read the contents at a path: the most recently written entry. -/
def fsRead : FS → String → Option String
  | [], _ => none
  | (q, c) :: rest, p => if q = p then some c else fsRead rest p

/-- Delete every entry at a path. -/
def fsErase : FS → String → FS
  | [], _ => []
  | (q, c) :: rest, p =>
      if q = p then fsErase rest p else (q, c) :: fsErase rest p

/-- Write contents at a path, replacing earlier entries. -/
def fsWrite (fs : FS) (p : String) (c : String) : FS :=
  (p, c) :: fsErase fs p

/-- Rename a file: the destination receives the source contents and the
source is removed; no-op when the source does not exist. -/
def fsRename (fs : FS) (src dst : String) : FS :=
  match fsRead fs src with
  | some c => fsWrite (fsErase fs src) dst c
  | none => fs

/-- Suffix of the temporary file used by the atomic dump. -/
def tmpSuffix : String := ".tmp"

/-- Temporary path used by the atomic dump. -/
def tempPath (p : String) : String := p ++ tmpSuffix

/-- Modelled from the spec: dump(path, format) of the HardwareSampling
library (absent from the provided sources).  It is valid only when the
session is Stopped (InvalidStateError otherwise); the serialized document
is written to a temporary file which is renamed onto the target only on
success.  The flag w says whether the write succeeds; on failure the dump
raises IOError and only the temporary file may retain partial data g. -/
def dumpFS (s : Session) (fs : FS) (p : String) (fmt : Format) (w : Bool)
    (g : String) : Except SamplerError Unit × FS :=
  match s.state with
  | SessionState.Stopped =>
      if w then
        let fs1 := fsWrite fs (tempPath p) (serialize s fmt)
        let fs2 := fsRename fs1 (tempPath p) p
        (Except.ok (), fs2)
      else
        (Except.error SamplerError.IOError, fsWrite fs (tempPath p) g)
  | _ => (Except.error SamplerError.InvalidStateError, fs)

/-- Modelled from the spec: the dump_yaml binding called by main.py is
dump with the YAML format. -/
def dump_yaml (s : Session) (fs : FS) (p : String) (w : Bool) (g : String) :
    Except SamplerError Unit × FS :=
  dumpFS s fs p Format.yaml w g

/-- First event label of the example main.py. -/
def initLabel : String := "init"

/-- Second event label of the example main.py. -/
def matmulLabel : String := "matmul"

/-- Output path of the example main.py. -/
def trackPath : String := "track.yaml"

/-- Background-tick operation from a timestamped metric reading. -/
def tickOp (p : Nat × Option Metrics) : Op := Op.tick p.1 p.2

/-- Sample entry produced by one background tick. -/
def mkEntry (p : Nat × Option Metrics) : SampleEntry :=
  match p.2 with
  | some m => SampleEntry.record p.1 m
  | none => SampleEntry.gap p.1

/-- Event operation from a timestamped label. -/
def eventOp (p : Nat × String) : Op := Op.addEvent p.1 p.2

/-- The operation trace of examples/python/main.py: start, add_event with
the init label, add_event with the matmul label, stop, with the background
sampling loop ticks ts1, ts2, ts3 interleaved between the caller calls. -/
def exampleOps (t0 t1 t2 t3 : Nat) (ts1 ts2 ts3 : List (Nat × Option Metrics)) :
    List Op :=
  Op.start t0 ::
    (ts1.map tickOp ++
      (Op.addEvent t1 initLabel ::
        (ts2.map tickOp ++
          (Op.addEvent t2 matmulLabel ::
            (ts3.map tickOp ++ [Op.stop t3])))))

theorem exec_nil (s : Session) : exec s [] = s := rfl

theorem exec_cons (s : Session) (op : Op) (ops : List Op) :
    exec s (op :: ops) = exec (applyOp s op) ops := rfl

theorem exec_append (s : Session) (l1 l2 : List Op) :
    exec s (l1 ++ l2) = exec (exec s l1) l2 := by
  simp [exec]

theorem applyOp_state_mono (s : Session) (op : Op) :
    stateOrd s.state ≤ stateOrd (applyOp s op).state := by
  cases op with
  | start t =>
      cases h : s.state <;> simp [applyOp, start, h, stateOrd]
  | addEvent t l =>
      cases h : s.state with
      | Stopped => simp [applyOp, add_event, h]
      | Idle =>
          by_cases hl : l = "" <;> simp [applyOp, add_event, h, hl, stateOrd]
      | Running =>
          by_cases hl : l = "" <;> simp [applyOp, add_event, h, hl, stateOrd]
  | stop t =>
      cases h : s.state <;> simp [applyOp, stop, h, stateOrd]
  | tick t m =>
      cases h : s.state <;> cases m <;> simp [applyOp, sampleTick, h, stateOrd]

theorem exec_state_mono (ops : List Op) :
    ∀ s : Session, stateOrd s.state ≤ stateOrd (exec s ops).state := by
  induction ops with
  | nil => intro s; simp [exec]
  | cons op rest ih =>
      intro s
      exact le_trans (applyOp_state_mono s op) (ih (applyOp s op))

theorem applyOp_stopped (s : Session) (h : s.state = SessionState.Stopped)
    (op : Op) : applyOp s op = s := by
  cases op <;> simp [applyOp, start, add_event, stop, sampleTick, h]

theorem exec_stopped (ops : List Op) :
    ∀ s : Session, s.state = SessionState.Stopped → exec s ops = s := by
  induction ops with
  | nil => intro s _; rfl
  | cons op rest ih =>
      intro s h
      show exec (applyOp s op) rest = s
      rw [applyOp_stopped s h op]
      exact ih s h

theorem start_not_idle (s : Session) (t : Nat)
    (h : s.state ≠ SessionState.Idle) :
    start s t = Except.error SamplerError.InvalidStateError := by
  cases hs : s.state with
  | Idle => exact absurd hs h
  | Running => simp [start, hs]
  | Stopped => simp [start, hs]

theorem stop_not_running (s : Session) (t : Nat)
    (h : s.state ≠ SessionState.Running) :
    stop s t = Except.error SamplerError.InvalidStateError := by
  cases hs : s.state with
  | Idle => simp [stop, hs]
  | Running => exact absurd hs h
  | Stopped => simp [stop, hs]

theorem start_ok (s s1 : Session) (t : Nat) (h : start s t = Except.ok s1) :
    s.state = SessionState.Idle ∧ s1.state = SessionState.Running := by
  cases hs : s.state with
  | Idle =>
      simp [start, hs] at h
      exact ⟨rfl, by rw [← h]⟩
  | Running => simp [start, hs] at h
  | Stopped => simp [start, hs] at h

theorem stop_ok (s s1 : Session) (t : Nat) (h : stop s t = Except.ok s1) :
    s.state = SessionState.Running ∧ s1.state = SessionState.Stopped := by
  cases hs : s.state with
  | Idle => simp [stop, hs] at h
  | Running =>
      simp [stop, hs] at h
      exact ⟨rfl, by rw [← h]⟩
  | Stopped => simp [stop, hs] at h

theorem applyOp_tick (s : Session) (p : Nat × Option Metrics)
    (h : s.state = SessionState.Running) :
    applyOp s (tickOp p) = { s with samples := s.samples ++ [mkEntry p] } := by
  obtain ⟨t, m⟩ := p
  cases m <;> simp [applyOp, tickOp, sampleTick, mkEntry, h]

theorem exec_ticks (ts : List (Nat × Option Metrics)) :
    ∀ s : Session, s.state = SessionState.Running →
      exec s (ts.map tickOp) =
        { s with samples := s.samples ++ ts.map mkEntry } := by
  induction ts with
  | nil => intro s _; simp [exec]
  | cons p rest ih =>
      intro s h
      show exec (applyOp s (tickOp p)) (rest.map tickOp) = _
      rw [applyOp_tick s p h,
        ih { s with samples := s.samples ++ [mkEntry p] } h]
      simp

theorem exec_events (evs : List (Nat × String)) :
    ∀ s : Session, s.state ≠ SessionState.Stopped → (∀ p ∈ evs, p.2 ≠ "") →
      exec s (evs.map eventOp) =
        { s with events := s.events ++ evs.map (fun p => Event.mk p.1 p.2) } := by
  induction evs with
  | nil => intro s _ _; simp [exec]
  | cons p rest ih =>
      intro s hs hlab
      have hl : p.2 ≠ "" := hlab p (by simp)
      have step : applyOp s (eventOp p) =
          { s with events := s.events ++ [Event.mk p.1 p.2] } := by
        cases hst : s.state with
        | Idle => simp [applyOp, eventOp, add_event, hst, hl]
        | Running => simp [applyOp, eventOp, add_event, hst, hl]
        | Stopped => exact absurd hst hs
      show exec (applyOp s (eventOp p)) (rest.map eventOp) = _
      rw [step, ih { s with events := s.events ++ [Event.mk p.1 p.2] } hs
        (fun q hq => hlab q (List.mem_cons_of_mem p hq))]
      simp

theorem map_time_mkEntry (L : List (Nat × Option Metrics)) :
    (L.map mkEntry).map SampleEntry.time = L.map Prod.fst := by
  induction L with
  | nil => rfl
  | cons p rest ih =>
      obtain ⟨t, m⟩ := p
      cases m <;> simp [mkEntry, SampleEntry.time, ih]

theorem applyOp_addEvent (s : Session) (t : Nat) (l : String)
    (h : s.state = SessionState.Running) (hl : l ≠ "") :
    applyOp s (Op.addEvent t l) =
      { s with events := s.events ++ [Event.mk t l] } := by
  simp [applyOp, add_event, h, hl]

theorem fsRead_fsErase_ne (q p : String) (h : q ≠ p) :
    ∀ fs : FS, fsRead (fsErase fs q) p = fsRead fs p := by
  intro fs
  induction fs with
  | nil => rfl
  | cons e rest ih =>
      obtain ⟨r, c⟩ := e
      by_cases hr : r = q
      · subst hr
        simp [fsErase, fsRead, h, ih]
      · by_cases hp : r = p <;>
          simp [fsErase, fsRead, hr, hp, ih, Ne.symm h]

theorem fsRead_fsWrite_same (fs : FS) (p c : String) :
    fsRead (fsWrite fs p c) p = some c := by
  simp [fsWrite, fsRead]

theorem fsRead_fsWrite_ne (fs : FS) (q p c : String) (h : q ≠ p) :
    fsRead (fsWrite fs q c) p = fsRead fs p := by
  simp [fsWrite, fsRead, h, fsRead_fsErase_ne q p h fs]

theorem tempPath_ne (p : String) : tempPath p ≠ p := by
  intro h
  have h2 := congrArg String.length h
  rw [tempPath, String.length_append] at h2
  have h3 : tmpSuffix.length = 4 := by decide
  omega

theorem dump_ok (s : Session) (fs : FS) (p : String) (fmt : Format)
    (g : String) (h : s.state = SessionState.Stopped) :
    (dumpFS s fs p fmt true g).1 = Except.ok () ∧
      fsRead (dumpFS s fs p fmt true g).2 p = some (serialize s fmt) := by
  constructor
  · simp [dumpFS, h]
  · simp [dumpFS, h, fsRename, fsRead_fsWrite_same]

/-- Empty partial-write content used when a dump does not fail. -/
def emptyData : String := ""

/-- A freshly constructed session. -/
def idleS : Session := Session.new

/-- A session started at time 0. -/
def runningS : Session :=
  { Session.new with state := SessionState.Running, startTime := some 0 }

/-- A session started at time 0 and stopped at time 3. -/
def stoppedS : Session :=
  { runningS with state := SessionState.Stopped, stopTime := some 3 }

theorem exampleOps_exec (t0 t1 t2 t3 : Nat)
    (ts1 ts2 ts3 : List (Nat × Option Metrics)) :
    exec Session.new (exampleOps t0 t1 t2 t3 ts1 ts2 ts3) =
      { state := SessionState.Stopped
        events := [Event.mk t1 initLabel, Event.mk t2 matmulLabel]
        samples := (ts1.map mkEntry ++ ts2.map mkEntry) ++ ts3.map mkEntry
        startTime := some t0
        stopTime := some t3 } := by
  have hinit : initLabel ≠ "" := by decide
  have hmat : matmulLabel ≠ "" := by decide
  have hsplit : exampleOps t0 t1 t2 t3 ts1 ts2 ts3 =
      (Op.start t0 :: ts1.map tickOp) ++
        ([Op.addEvent t1 initLabel] ++
          (ts2.map tickOp ++
            ([Op.addEvent t2 matmulLabel] ++
              (ts3.map tickOp ++ [Op.stop t3])))) := by
    simp [exampleOps]
  have h1 : exec Session.new (Op.start t0 :: ts1.map tickOp) =
      ⟨SessionState.Running, [], ts1.map mkEntry, some t0, none⟩ := by
    show exec (applyOp Session.new (Op.start t0)) (ts1.map tickOp) = _
    have ha : applyOp Session.new (Op.start t0) =
        ⟨SessionState.Running, [], [], some t0, none⟩ := rfl
    rw [ha, exec_ticks ts1 ⟨SessionState.Running, [], [], some t0, none⟩ rfl]
    simp
  have h2 : exec ⟨SessionState.Running, [], ts1.map mkEntry, some t0, none⟩
        [Op.addEvent t1 initLabel] =
      ⟨SessionState.Running, [Event.mk t1 initLabel], ts1.map mkEntry,
        some t0, none⟩ := by
    show applyOp ⟨SessionState.Running, [], ts1.map mkEntry, some t0, none⟩
        (Op.addEvent t1 initLabel) = _
    rw [applyOp_addEvent _ t1 initLabel rfl hinit]
    simp
  have h3 : exec ⟨SessionState.Running, [Event.mk t1 initLabel],
        ts1.map mkEntry, some t0, none⟩ (ts2.map tickOp) =
      ⟨SessionState.Running, [Event.mk t1 initLabel],
        ts1.map mkEntry ++ ts2.map mkEntry, some t0, none⟩ := by
    rw [exec_ticks ts2 ⟨SessionState.Running, [Event.mk t1 initLabel],
      ts1.map mkEntry, some t0, none⟩ rfl]
  have h4 : exec ⟨SessionState.Running, [Event.mk t1 initLabel],
        ts1.map mkEntry ++ ts2.map mkEntry, some t0, none⟩
        [Op.addEvent t2 matmulLabel] =
      ⟨SessionState.Running, [Event.mk t1 initLabel, Event.mk t2 matmulLabel],
        ts1.map mkEntry ++ ts2.map mkEntry, some t0, none⟩ := by
    show applyOp ⟨SessionState.Running, [Event.mk t1 initLabel],
        ts1.map mkEntry ++ ts2.map mkEntry, some t0, none⟩
        (Op.addEvent t2 matmulLabel) = _
    rw [applyOp_addEvent _ t2 matmulLabel rfl hmat]
    simp
  have h5 : exec ⟨SessionState.Running,
        [Event.mk t1 initLabel, Event.mk t2 matmulLabel],
        ts1.map mkEntry ++ ts2.map mkEntry, some t0, none⟩ (ts3.map tickOp) =
      ⟨SessionState.Running, [Event.mk t1 initLabel, Event.mk t2 matmulLabel],
        (ts1.map mkEntry ++ ts2.map mkEntry) ++ ts3.map mkEntry,
        some t0, none⟩ := by
    rw [exec_ticks ts3 ⟨SessionState.Running,
      [Event.mk t1 initLabel, Event.mk t2 matmulLabel],
      ts1.map mkEntry ++ ts2.map mkEntry, some t0, none⟩ rfl]
  have h6 : exec ⟨SessionState.Running,
        [Event.mk t1 initLabel, Event.mk t2 matmulLabel],
        (ts1.map mkEntry ++ ts2.map mkEntry) ++ ts3.map mkEntry,
        some t0, none⟩ [Op.stop t3] =
      ⟨SessionState.Stopped, [Event.mk t1 initLabel, Event.mk t2 matmulLabel],
        (ts1.map mkEntry ++ ts2.map mkEntry) ++ ts3.map mkEntry,
        some t0, some t3⟩ := rfl
  rw [hsplit, exec_append, h1, exec_append, h2, exec_append, h3,
    exec_append, h4, exec_append, h5, h6]

/-- C1: the session lifecycle only moves forward along Idle, Running,
Stopped: no operation ever returns the session to an earlier lifecycle
state, and once a start (resp. stop) transition has succeeded, no later
start (resp. stop) call on the same session can ever succeed again. -/
theorem C1_lifecycle_forward_once :
    (∀ (s : Session) (op : Op),
      stateOrd s.state ≤ stateOrd (applyOp s op).state) ∧
    (∀ (s s1 : Session) (t : Nat), start s t = Except.ok s1 →
      ∀ (ops : List Op) (t2 : Nat),
        start (exec s1 ops) t2 = Except.error SamplerError.InvalidStateError) ∧
    (∀ (s s1 : Session) (t : Nat), stop s t = Except.ok s1 →
      ∀ (ops : List Op) (t2 : Nat),
        stop (exec s1 ops) t2 = Except.error SamplerError.InvalidStateError) := by
  refine ⟨applyOp_state_mono, ?_, ?_⟩
  · intro s s1 t h ops t2
    have h1 : s1.state = SessionState.Running := (start_ok s s1 t h).2
    apply start_not_idle
    intro hidle
    have hm := exec_state_mono ops s1
    rw [h1, hidle] at hm
    simp [stateOrd] at hm
  · intro s s1 t h ops t2
    have h1 : s1.state = SessionState.Stopped := (stop_ok s s1 t h).2
    apply stop_not_running
    intro hrun
    have hm := exec_state_mono ops s1
    rw [h1, hrun] at hm
    simp [stateOrd] at hm

/-- Witness for C1 at a concrete started session and a concrete stopped
session. -/
theorem C1_lifecycle_forward_once_witness :
    start (exec runningS [Op.tick 1 none]) 5 =
        Except.error SamplerError.InvalidStateError ∧
    stop (exec stoppedS [Op.tick 4 none]) 6 =
        Except.error SamplerError.InvalidStateError :=
  ⟨C1_lifecycle_forward_once.2.1 idleS runningS 0 (by decide) [Op.tick 1 none] 5,
   C1_lifecycle_forward_once.2.2 runningS stoppedS 3 (by decide)
     [Op.tick 4 none] 6⟩

/-- C2: start on an already Running or Stopped session fails with
InvalidStateError, stop on a non-Running session fails with
InvalidStateError, and in both failure cases the session (its state and
its recorded sequences) is unchanged. -/
theorem C2_invalid_start_stop (s : Session) (t : Nat) :
    ((s.state = SessionState.Running ∨ s.state = SessionState.Stopped) →
      start s t = Except.error SamplerError.InvalidStateError ∧
        applyOp s (Op.start t) = s) ∧
    (s.state ≠ SessionState.Running →
      stop s t = Except.error SamplerError.InvalidStateError ∧
        applyOp s (Op.stop t) = s) := by
  constructor
  · intro h
    have hne : s.state ≠ SessionState.Idle := by
      rcases h with h | h <;> simp [h]
    have he := start_not_idle s t hne
    exact ⟨he, by simp [applyOp, he]⟩
  · intro h
    have he := stop_not_running s t h
    exact ⟨he, by simp [applyOp, he]⟩

/-- Witness for C2 at a concrete stopped session and a concrete idle
session. -/
theorem C2_invalid_start_stop_witness :
    (start stoppedS 7 = Except.error SamplerError.InvalidStateError ∧
      applyOp stoppedS (Op.start 7) = stoppedS) ∧
    (stop idleS 7 = Except.error SamplerError.InvalidStateError ∧
      applyOp idleS (Op.stop 7) = idleS) :=
  ⟨(C2_invalid_start_stop stoppedS 7).1 (Or.inr (by decide)),
   (C2_invalid_start_stop idleS 7).2 (by decide)⟩

/-- C3: dump before the session is Stopped fails with InvalidStateError
and leaves the filesystem untouched; dump on a Stopped session with a
writable path succeeds and produces the serialized document at the
path. -/
theorem C3_dump_lifecycle (s : Session) (fs : FS) (p : String)
    (fmt : Format) (w : Bool) (g : String) :
    (s.state ≠ SessionState.Stopped →
      (dumpFS s fs p fmt w g).1 = Except.error SamplerError.InvalidStateError ∧
        (dumpFS s fs p fmt w g).2 = fs) ∧
    (s.state = SessionState.Stopped →
      (dumpFS s fs p fmt true g).1 = Except.ok () ∧
        fsRead (dumpFS s fs p fmt true g).2 p = some (serialize s fmt)) := by
  constructor
  · intro h
    cases hs : s.state with
    | Stopped => exact absurd hs h
    | Idle => simp [dumpFS, hs]
    | Running => simp [dumpFS, hs]
  · intro h
    exact dump_ok s fs p fmt g h

/-- Witness for C3 at a concrete running session and a concrete stopped
session, on the example output path. -/
theorem C3_dump_lifecycle_witness :
    ((dumpFS runningS [] trackPath Format.yaml true emptyData).1 =
        Except.error SamplerError.InvalidStateError ∧
      (dumpFS runningS [] trackPath Format.yaml true emptyData).2 = []) ∧
    ((dumpFS stoppedS [] trackPath Format.yaml true emptyData).1 =
        Except.ok () ∧
      fsRead (dumpFS stoppedS [] trackPath Format.yaml true emptyData).2
          trackPath =
        some (serialize stoppedS Format.yaml)) :=
  ⟨(C3_dump_lifecycle runningS [] trackPath Format.yaml true emptyData).1
      (by decide),
   (C3_dump_lifecycle stoppedS [] trackPath Format.yaml true emptyData).2
      (by decide)⟩

/-- Partial data left in a temporary file by a failed write. -/
def leftoverData : String := "partial"

theorem map_timestamp_mk (evs : List (Nat × String)) :
    (evs.map (fun p => Event.mk p.1 p.2)).map Event.timestamp =
      evs.map Prod.fst := by
  induction evs with
  | nil => rfl
  | cons p rest ih => simp [ih]

/-- C4: for an execution start, then n add_event calls, then stop, the
recorded event sequence has exactly n entries in call order, and with the
monotonic call timestamps the event timestamps are non-decreasing. -/
theorem C4_event_sequence (t0 tN : Nat) (evs : List (Nat × String))
    (hlab : ∀ p ∈ evs, p.2 ≠ "")
    (hmono : List.Chain' (· ≤ ·) (evs.map Prod.fst)) :
    start Session.new t0 = Except.ok
      ⟨SessionState.Running, [], [], some t0, none⟩ ∧
    stop (exec ⟨SessionState.Running, [], [], some t0, none⟩
        (evs.map eventOp)) tN =
      Except.ok ⟨SessionState.Stopped,
        evs.map (fun p => Event.mk p.1 p.2), [], some t0, some tN⟩ ∧
    (evs.map (fun p => Event.mk p.1 p.2)).length = evs.length ∧
    List.Chain' (· ≤ ·)
      ((evs.map (fun p => Event.mk p.1 p.2)).map Event.timestamp) := by
  refine ⟨rfl, ?_, by simp, ?_⟩
  · rw [exec_events evs ⟨SessionState.Running, [], [], some t0, none⟩
      (by simp) hlab]
    simp [stop]
  · rw [map_timestamp_mk]
    exact hmono

/-- Witness for C4 with the two events of the example, at monotonic
times. -/
theorem C4_event_sequence_witness :
    start Session.new 0 = Except.ok
      ⟨SessionState.Running, [], [], some 0, none⟩ ∧
    stop (exec ⟨SessionState.Running, [], [], some 0, none⟩
        (([(1, initLabel), (2, matmulLabel)] :
          List (Nat × String)).map eventOp)) 3 =
      Except.ok ⟨SessionState.Stopped,
        ([(1, initLabel), (2, matmulLabel)] :
          List (Nat × String)).map (fun p => Event.mk p.1 p.2), [],
        some 0, some 3⟩ ∧
    (([(1, initLabel), (2, matmulLabel)] :
        List (Nat × String)).map (fun p => Event.mk p.1 p.2)).length =
      ([(1, initLabel), (2, matmulLabel)] : List (Nat × String)).length ∧
    List.Chain' (· ≤ ·)
      ((([(1, initLabel), (2, matmulLabel)] :
        List (Nat × String)).map (fun p => Event.mk p.1 p.2)).map
          Event.timestamp) :=
  C4_event_sequence 0 3 [(1, initLabel), (2, matmulLabel)]
    (by decide) (by simp [List.chain'_cons])

/-- C6: dumping a Stopped session twice to the same path succeeds both
times and both dumps leave the identical serialized document (a pure
function of the session and the format) at the path. -/
theorem C6_dump_idempotent (s : Session) (fs : FS) (p : String)
    (fmt : Format) (g1 g2 : String) (h : s.state = SessionState.Stopped) :
    (dumpFS s fs p fmt true g1).1 = Except.ok () ∧
    (dumpFS s (dumpFS s fs p fmt true g1).2 p fmt true g2).1 =
      Except.ok () ∧
    fsRead (dumpFS s fs p fmt true g1).2 p = some (serialize s fmt) ∧
    fsRead (dumpFS s (dumpFS s fs p fmt true g1).2 p fmt true g2).2 p =
      some (serialize s fmt) := by
  obtain ⟨a1, b1⟩ := dump_ok s fs p fmt g1 h
  obtain ⟨a2, b2⟩ := dump_ok s (dumpFS s fs p fmt true g1).2 p fmt g2 h
  exact ⟨a1, a2, b1, b2⟩

/-- Witness for C6 at the concrete stopped session and the example
path. -/
theorem C6_dump_idempotent_witness :
    (dumpFS stoppedS [] trackPath Format.yaml true emptyData).1 =
      Except.ok () ∧
    (dumpFS stoppedS
        (dumpFS stoppedS [] trackPath Format.yaml true emptyData).2
        trackPath Format.yaml true emptyData).1 = Except.ok () ∧
    fsRead (dumpFS stoppedS [] trackPath Format.yaml true emptyData).2
        trackPath = some (serialize stoppedS Format.yaml) ∧
    fsRead (dumpFS stoppedS
        (dumpFS stoppedS [] trackPath Format.yaml true emptyData).2
        trackPath Format.yaml true emptyData).2 trackPath =
      some (serialize stoppedS Format.yaml) :=
  C6_dump_idempotent stoppedS [] trackPath Format.yaml emptyData emptyData
    (by decide)

/-- C7: dump writes to a temporary file and renames it onto the target
only on success: a failing dump raises IOError and leaves the target
exactly as it was, and a successful dump leaves the complete serialized
document at the target. -/
theorem C7_dump_atomic (s : Session) (fs : FS) (p : String) (fmt : Format)
    (g : String) (h : s.state = SessionState.Stopped) :
    ((dumpFS s fs p fmt false g).1 = Except.error SamplerError.IOError ∧
      fsRead (dumpFS s fs p fmt false g).2 p = fsRead fs p) ∧
    ((dumpFS s fs p fmt true g).1 = Except.ok () ∧
      fsRead (dumpFS s fs p fmt true g).2 p = some (serialize s fmt)) := by
  refine ⟨⟨by simp [dumpFS, h], ?_⟩, dump_ok s fs p fmt g h⟩
  have h2 : (dumpFS s fs p fmt false g).2 = fsWrite fs (tempPath p) g := by
    simp [dumpFS, h]
  rw [h2, fsRead_fsWrite_ne fs (tempPath p) p g (tempPath_ne p)]

/-- Witness for C7 at the concrete stopped session with partial data left
in the temporary file. -/
theorem C7_dump_atomic_witness :
    ((dumpFS stoppedS [] trackPath Format.yaml false leftoverData).1 =
        Except.error SamplerError.IOError ∧
      fsRead (dumpFS stoppedS [] trackPath Format.yaml false leftoverData).2
          trackPath = fsRead [] trackPath) ∧
    ((dumpFS stoppedS [] trackPath Format.yaml true leftoverData).1 =
        Except.ok () ∧
      fsRead (dumpFS stoppedS [] trackPath Format.yaml true leftoverData).2
          trackPath = some (serialize stoppedS Format.yaml)) :=
  C7_dump_atomic stoppedS [] trackPath Format.yaml leftoverData (by decide)

/-- C8: a metric-source failure during one background sampling iteration
is recorded as a gap in the sample sequence, the session stays Running (it
is not terminated and nothing is raised: the step is total), and the next
iteration still appends its sample record. -/
theorem C8_source_error_gap (s : Session) (t : Nat)
    (h : s.state = SessionState.Running) :
    sampleTick s t none =
      { s with samples := s.samples ++ [SampleEntry.gap t] } ∧
    (sampleTick s t none).state = SessionState.Running ∧
    ∀ (t2 : Nat) (m : Metrics),
      sampleTick (sampleTick s t none) t2 (some m) =
        { s with samples :=
            s.samples ++ [SampleEntry.gap t, SampleEntry.record t2 m] } := by
  refine ⟨by simp [sampleTick, h], by simp [sampleTick, h], ?_⟩
  intro t2 m
  simp [sampleTick, h]

/-- Witness for C8 at the concrete running session, with a concrete
successful tick after the gap. -/
theorem C8_source_error_gap_witness :
    sampleTick runningS 1 none =
      { runningS with samples := runningS.samples ++ [SampleEntry.gap 1] } ∧
    (sampleTick runningS 1 none).state = SessionState.Running ∧
    sampleTick (sampleTick runningS 1 none) 3 (some []) =
      { runningS with samples := runningS.samples ++
          [SampleEntry.gap 1, SampleEntry.record 3 []] } :=
  have h := C8_source_error_gap runningS 1 (by decide)
  ⟨h.1, h.2.1, h.2.2 3 []⟩

/-- C9: after a successful stop, the session is final: no later operation
(in particular no background tick) changes it, so no sample record is ever
appended to the sample sequence after stop returns. -/
theorem C9_no_append_after_stop (s s1 : Session) (t : Nat)
    (h : stop s t = Except.ok s1) (ops : List Op) :
    exec s1 ops = s1 ∧ (exec s1 ops).samples = s1.samples := by
  have hs : s1.state = SessionState.Stopped := (stop_ok s s1 t h).2
  have he := exec_stopped ops s1 hs
  exact ⟨he, by rw [he]⟩

/-- Witness for C9: ticks after the concrete stop append nothing. -/
theorem C9_no_append_after_stop_witness :
    exec stoppedS [Op.tick 4 (some []), Op.tick 5 none] = stoppedS ∧
    (exec stoppedS [Op.tick 4 (some []), Op.tick 5 none]).samples =
      stoppedS.samples :=
  C9_no_append_after_stop runningS stoppedS 3 (by decide)
    [Op.tick 4 (some []), Op.tick 5 none]

/-- C5: the concrete main.py run (start, add_event init, add_event matmul,
stop, dump) with any background samples interleaved at monotonic times:
the resulting document has exactly the two events in order, and its sample
timestamps are non-decreasing and all lie within the start/stop
interval. -/
theorem C5_concrete_scenario (t0 t1 t2 t3 : Nat)
    (ts1 ts2 ts3 : List (Nat × Option Metrics))
    (hmono : List.Pairwise (· ≤ ·)
      (t0 :: (ts1.map Prod.fst ++
        (t1 :: (ts2.map Prod.fst ++
          (t2 :: (ts3.map Prod.fst ++ [t3]))))))) :
    (toDocument (exec Session.new
        (exampleOps t0 t1 t2 t3 ts1 ts2 ts3))).events =
      [Event.mk t1 initLabel, Event.mk t2 matmulLabel] ∧
    (toDocument (exec Session.new
        (exampleOps t0 t1 t2 t3 ts1 ts2 ts3))).startTime = some t0 ∧
    (toDocument (exec Session.new
        (exampleOps t0 t1 t2 t3 ts1 ts2 ts3))).stopTime = some t3 ∧
    List.Chain' (· ≤ ·) ((toDocument (exec Session.new
        (exampleOps t0 t1 t2 t3 ts1 ts2 ts3))).samples.map
          SampleEntry.time) ∧
    ∀ x ∈ (toDocument (exec Session.new
        (exampleOps t0 t1 t2 t3 ts1 ts2 ts3))).samples.map SampleEntry.time,
      t0 ≤ x ∧ x ≤ t3 := by
  rw [exampleOps_exec t0 t1 t2 t3 ts1 ts2 ts3]
  have hsub : List.Sublist
      ((ts1.map Prod.fst ++ ts2.map Prod.fst) ++ ts3.map Prod.fst)
      (t0 :: (ts1.map Prod.fst ++ (t1 :: (ts2.map Prod.fst ++
        (t2 :: (ts3.map Prod.fst ++ [t3])))))) := by
    have c3 : List.Sublist (ts3.map Prod.fst)
        (t2 :: (ts3.map Prod.fst ++ [t3])) :=
      List.Sublist.cons t2 (List.sublist_append_left _ _)
    have c2 : List.Sublist (ts2.map Prod.fst ++ ts3.map Prod.fst)
        (t1 :: (ts2.map Prod.fst ++ (t2 :: (ts3.map Prod.fst ++ [t3])))) :=
      List.Sublist.cons t1 ((List.append_sublist_append_left _).mpr c3)
    have c1 : List.Sublist
        (ts1.map Prod.fst ++ (ts2.map Prod.fst ++ ts3.map Prod.fst))
        (ts1.map Prod.fst ++ (t1 :: (ts2.map Prod.fst ++
          (t2 :: (ts3.map Prod.fst ++ [t3]))))) :=
      (List.append_sublist_append_left _).mpr c2
    have c0 := List.Sublist.cons t0 c1
    rw [List.append_assoc]
    exact c0
  refine ⟨rfl, rfl, rfl, ?_, ?_⟩
  · show List.Chain' (· ≤ ·)
      (((ts1.map mkEntry ++ ts2.map mkEntry) ++ ts3.map mkEntry).map
        SampleEntry.time)
    simp only [List.map_append]
    rw [map_time_mkEntry ts1, map_time_mkEntry ts2, map_time_mkEntry ts3]
    exact (List.Pairwise.sublist hsub hmono).chain'
  · show ∀ x ∈ (((ts1.map mkEntry ++ ts2.map mkEntry) ++
        ts3.map mkEntry).map SampleEntry.time), t0 ≤ x ∧ x ≤ t3
    intro x hx
    have hx3 : x ∈ ts1.map Prod.fst ∨ x ∈ ts2.map Prod.fst ∨
        x ∈ ts3.map Prod.fst := by
      simp only [List.map_append, map_time_mkEntry, List.mem_append,
        or_assoc] at hx
      exact hx
    obtain ⟨h0, htail⟩ := List.pairwise_cons.mp hmono
    constructor
    · apply h0
      rcases hx3 with h | h | h <;>
        simp [List.mem_append, List.mem_cons, h]
    · obtain ⟨pa, prest, hcrossA⟩ := List.pairwise_append.mp htail
      obtain ⟨hb0, p2⟩ := List.pairwise_cons.mp prest
      obtain ⟨pb, p3rest, hcrossB⟩ := List.pairwise_append.mp p2
      obtain ⟨hc0, p3⟩ := List.pairwise_cons.mp p3rest
      obtain ⟨pc, pd, hcrossC⟩ := List.pairwise_append.mp p3
      rcases hx3 with h | h | h
      · exact hcrossA x h t3 (by simp)
      · exact hcrossB x h t3 (by simp)
      · exact hcrossC x h t3 (by simp)

/-- Witness for C5 at concrete monotonic times with one background sample
in each phase. -/
theorem C5_concrete_scenario_witness :
    ((toDocument (exec Session.new
        (exampleOps 0 2 4 6 [(1, none)] [(3, some [])] [(5, none)]))).events =
      [Event.mk 2 initLabel, Event.mk 4 matmulLabel] ∧
    (toDocument (exec Session.new
        (exampleOps 0 2 4 6 [(1, none)] [(3, some [])] [(5, none)]))).startTime =
      some 0 ∧
    (toDocument (exec Session.new
        (exampleOps 0 2 4 6 [(1, none)] [(3, some [])] [(5, none)]))).stopTime =
      some 6 ∧
    List.Chain' (· ≤ ·) ((toDocument (exec Session.new
        (exampleOps 0 2 4 6 [(1, none)] [(3, some [])] [(5, none)]))).samples.map
          SampleEntry.time)) ∧
    (0 ≤ 3 ∧ 3 ≤ 6) :=
  have h := C5_concrete_scenario 0 2 4 6 [(1, none)] [(3, some [])]
    [(5, none)] (by decide)
  ⟨⟨h.1, h.2.1, h.2.2.1, h.2.2.2.1⟩, h.2.2.2.2 3 (by decide)⟩

/-- C10: the example program main.py calls the sampler in an order that
satisfies every lifecycle precondition: start from Idle, two add_event
calls with non-empty labels while Running, one stop while Running, and
dump_yaml only after stop; every call succeeds, so no InvalidStateError or
InvalidArgumentError branch is reachable along this path. -/
theorem C10_example_call_order :
    start Session.new 0 = Except.ok runningS ∧
    add_event runningS 1 initLabel = Except.ok
      { runningS with events := [Event.mk 1 initLabel] } ∧
    add_event { runningS with events := [Event.mk 1 initLabel] } 2
        matmulLabel =
      Except.ok { runningS with
        events := [Event.mk 1 initLabel, Event.mk 2 matmulLabel] } ∧
    stop { runningS with
        events := [Event.mk 1 initLabel, Event.mk 2 matmulLabel] } 3 =
      Except.ok { runningS with
        state := SessionState.Stopped
        events := [Event.mk 1 initLabel, Event.mk 2 matmulLabel]
        stopTime := some 3 } ∧
    (dump_yaml { runningS with
        state := SessionState.Stopped
        events := [Event.mk 1 initLabel, Event.mk 2 matmulLabel]
        stopTime := some 3 } [] trackPath true emptyData).1 =
      Except.ok () := by
  refine ⟨?_, ?_, ?_, ?_, ?_⟩ <;> decide

end HardwareSampling
